import Mathlib

/-!
Verification of the thermal-local measurement manager's sync/ingestion core.

The development shallowly embeds the relational state of the application:
the local SQLite mirror and the remote PostgreSQL store are records of
row lists, SQL statements become list operations (SELECT ... fetchone is
List.find?, UPDATE is List.map with a conditional field change, DELETE FROM
is the empty list, INSERT ... ON CONFLICT DO NOTHING inserts unless a row
with the same primary key already exists).

Reading values are REAL columns (Python floats) in the source; no claim
computes with them, so the whole development is parametric in the value
type α, which the operations only carry around.
-/

namespace ThermalLocal

variable {α : Type}

/-- A row of the `users` table (local mirror and remote share the shape). -/
structure UserRow where
  id : String
  username : String
  role : String
  active : Bool
  hashed_password : String
  created_at : String
  is_delete : Bool
deriving DecidableEq

/-- A row of the `devices` table. `structure_json` is a nullable TEXT column. -/
structure DeviceRow where
  id : String
  name : String
  structure_json : Option String
  experiment_by : String
  created_by : String
  created_at : String
  is_delete : Bool
deriving DecidableEq

/-- A local `measurements` row; `num_order` is nullable before a push assigns it. -/
structure LocalMeasurementRow where
  id : String
  device_id : String
  num_order : Option Int
  name : String
  created_by : String
  created_at : String
  is_delete : Bool
deriving DecidableEq

/-- A remote `measurements` row; the remote assigns `num_order` on push. -/
structure RemoteMeasurementRow where
  id : String
  device_id : String
  num_order : Int
  name : String
  created_by : String
  created_at : String
  is_delete : Bool
deriving DecidableEq

/-- A row of the `cole_cole` reading table. -/
structure ColeColeRow (α : Type) where
  id : String
  measurement_id : String
  frequency : α
  resistance : α
  reactance : α
  capacitance : α
  is_delete : Bool
deriving DecidableEq

/-- A row of the `standard_plot` reading table. -/
structure StandardPlotRow (α : Type) where
  id : String
  measurement_id : String
  time : α
  voltage : α
  is_delete : Bool
deriving DecidableEq

/-- A row of the `nanothickness` reading table. -/
structure NanothicknessRow (α : Type) where
  id : String
  measurement_id : String
  pos1 : α
  pos2 : α
  pos3 : α
  pos4 : α
  pos5 : α
  is_delete : Bool
deriving DecidableEq

/-- The six tables of the local SQLite database. -/
structure LocalDB (α : Type) where
  users : List UserRow
  devices : List DeviceRow
  measurements : List LocalMeasurementRow
  cole_cole : List (ColeColeRow α)
  standard_plot : List (StandardPlotRow α)
  nanothickness : List (NanothicknessRow α)
deriving DecidableEq

/-- The corresponding tables of the remote PostgreSQL database. -/
structure RemoteDB (α : Type) where
  users : List UserRow
  devices : List DeviceRow
  measurements : List RemoteMeasurementRow
  cole_cole : List (ColeColeRow α)
  standard_plot : List (StandardPlotRow α)
  nanothickness : List (NanothicknessRow α)
deriving DecidableEq

/-! ### Measurement service: id resolution -/

/-- Error kinds raised by the measurement service. -/
inductive ServiceError
  | deviceNotFound
  | measurementNotFound
  | duplicateName
deriving DecidableEq

/-- Embeds `get_device_id`: `SELECT id FROM devices WHERE name = ?`, fetchone;
raises a not-found error when no row matches. Note the source query has no
`is_delete` filter. -/
def get_device_id (db : LocalDB α) (device_name : String) : Except ServiceError String :=
  match db.devices.find? (fun d => d.name == device_name) with
  | none => .error .deviceNotFound
  | some d => .ok d.id

/-- Embeds `get_measurement_id`: selects `m.id` from measurements joined with
devices where `m.name = ? AND d.name = ? AND m.is_delete = 0`, fetchone. The
join carries no `d.is_delete` filter. -/
def get_measurement_id (db : LocalDB α) (device_name measurement_name : String) :
    Except ServiceError String :=
  match db.measurements.find? (fun m =>
      m.name == measurement_name && !m.is_delete &&
      db.devices.any (fun d => d.id == m.device_id && d.name == device_name)) with
  | none => .error .measurementNotFound
  | some m => .ok m.id

/-! ### Measurement service: device structure JSON -/

/-- Result of parsing a device's `structure_json`: either the parsed value or
the sentinel payload the source returns on `json.JSONDecodeError`
(a dict holding an error marker). The parser for the external `json.loads`
is a parameter `parse` below. -/
inductive StructureResult (J : Type)
  | parsed (j : J)
  | invalidJson
deriving DecidableEq

/-- Embeds `get_device_structure`. `SELECT structure_json FROM devices WHERE
name = ?`; returns `none` when no row is found or the stored text is falsy
(NULL or the empty string); otherwise parses, absorbing a parse failure into
the sentinel instead of raising. -/
def get_device_structure {J : Type} (parse : String → Option J)
    (db : LocalDB α) (device_name : String) : Option (StructureResult J) :=
  match db.devices.find? (fun d => d.name == device_name) with
  | none => none
  | some d =>
    match d.structure_json with
    | none => none
    | some s =>
      if s = "" then none
      else
        match parse s with
        | some j => some (.parsed j)
        | none => some .invalidJson

/-! ### Measurement service: ownership check -/

/-- Embeds `is_measurement_owner`: selects `created_by` where
`id = ? AND is_delete = 0`; `False` when no row matches, otherwise compares
the recorded creator with the given username. -/
def is_measurement_owner (db : LocalDB α) (measurement_id username : String) : Bool :=
  match db.measurements.find? (fun m => m.id == measurement_id && !m.is_delete) with
  | none => false
  | some m => m.created_by == username

/-! ### Measurement service: creation -/

/-- The duplicate check of `create_measurement`: does a non-deleted measurement
with this exact name already exist under this device id? -/
def measurementNameTaken (db : LocalDB α) (device_id mname : String) : Bool :=
  db.measurements.any (fun m =>
    m.device_id == device_id && m.name == mname && !m.is_delete)

/-- Embeds `create_measurement`. Trims the requested name, raises a validation
error when a non-deleted measurement with that name already exists under the
device, otherwise inserts a new row with a fresh id, a NULL `num_order` and
`is_delete` at its default 0. The `device_name` argument is used by the source
only for the filesystem folder side effect, which is outside the relational
model; `new_id` and `created_at` stand for `uuid.uuid4()` and
`datetime.utcnow()`. -/
def create_measurement (db : LocalDB α) (device_name device_id measurement_name
    created_by new_id created_at : String) : Except ServiceError (LocalDB α) :=
  let mname := measurement_name.trim
  let _ := device_name
  if measurementNameTaken db device_id mname then
    .error .duplicateName
  else
    .ok { db with measurements := db.measurements ++
      [{ id := new_id, device_id := device_id, num_order := none, name := mname,
         created_by := created_by, created_at := created_at, is_delete := false }] }

/-! ### Measurement service: soft delete -/

/-- Error kinds of `soft_delete_measurement`: the not-found RuntimeError, the
PermissionError for a non-creator, and the composite RuntimeError raised when
the local delete committed but the remote propagation failed. -/
inductive SoftDeleteError
  | notFound
  | permission
  | localDeletedRemoteSyncFailed
deriving DecidableEq

/-- Outcome of `soft_delete_measurement`: the local database, the remote
database, and the error raised, if any. -/
structure SoftDeleteResult (α : Type) where
  db : LocalDB α
  remote : RemoteDB α
  err : Option SoftDeleteError
deriving DecidableEq

/-- The four local UPDATE statements of `soft_delete_measurement`: set
`is_delete = 1` on the measurement row with the given id and on every row of
the three reading tables carrying that `measurement_id`. -/
def markDeletedLocal (db : LocalDB α) (measurement_id : String) : LocalDB α :=
  { db with
    measurements := db.measurements.map (fun m =>
      if m.id == measurement_id then { m with is_delete := true } else m),
    cole_cole := db.cole_cole.map (fun r =>
      if r.measurement_id == measurement_id then { r with is_delete := true } else r),
    standard_plot := db.standard_plot.map (fun r =>
      if r.measurement_id == measurement_id then { r with is_delete := true } else r),
    nanothickness := db.nanothickness.map (fun r =>
      if r.measurement_id == measurement_id then { r with is_delete := true } else r) }

/-- Embeds `_sync_soft_delete_to_server`: the same four UPDATE statements,
run against the remote store in one transaction. -/
def sync_soft_delete_to_server (remote : RemoteDB α) (measurement_id : String) : RemoteDB α :=
  { remote with
    measurements := remote.measurements.map (fun m =>
      if m.id == measurement_id then { m with is_delete := true } else m),
    cole_cole := remote.cole_cole.map (fun r =>
      if r.measurement_id == measurement_id then { r with is_delete := true } else r),
    standard_plot := remote.standard_plot.map (fun r =>
      if r.measurement_id == measurement_id then { r with is_delete := true } else r),
    nanothickness := remote.nanothickness.map (fun r =>
      if r.measurement_id == measurement_id then { r with is_delete := true } else r) }

/-- Embeds `soft_delete_measurement`. Resolves the measurement through the
join `m.name = ? AND d.name = ? AND m.is_delete = 0` (fetchone), raises
not-found or permission errors leaving both stores untouched, otherwise
commits the local soft delete and then attempts the remote propagation.
`remote_ok` stands for whether the remote transaction succeeds (connectivity
and schema being external); on a remote failure the committed local delete is
kept and the composite error is raised. -/
def soft_delete_measurement (remote_ok : Bool) (db : LocalDB α) (remote : RemoteDB α)
    (device_name measurement_name username : String) : SoftDeleteResult α :=
  match db.measurements.find? (fun m =>
      m.name == measurement_name && !m.is_delete &&
      db.devices.any (fun d => d.id == m.device_id && d.name == device_name)) with
  | none => ⟨db, remote, some .notFound⟩
  | some m =>
    if m.created_by != username then ⟨db, remote, some .permission⟩
    else
      let db' := markDeletedLocal db m.id
      if remote_ok then ⟨db', sync_soft_delete_to_server remote m.id, none⟩
      else ⟨db', remote, some .localDeletedRemoteSyncFailed⟩

/-! ### Sync engine: full pull (remote → local) -/

/-- The pull SELECT for users reads the six data columns but not `is_delete`,
and the local INSERT leaves `is_delete` at its schema default 0. -/
def pulledUser (u : UserRow) : UserRow := { u with is_delete := false }

/-- The pull SELECT for devices likewise never carries `is_delete`. -/
def pulledDevice (d : DeviceRow) : DeviceRow := { d with is_delete := false }

/-- A remote measurement as re-inserted locally by the pull: `num_order`
becomes a non-null value, `is_delete` is left at its default 0. -/
def localMeasurementOfRemote (m : RemoteMeasurementRow) : LocalMeasurementRow :=
  { id := m.id, device_id := m.device_id, num_order := some m.num_order,
    name := m.name, created_by := m.created_by, created_at := m.created_at,
    is_delete := false }

/-- A pulled `cole_cole` row: the six data columns, `is_delete` defaulted. -/
def pulledColeCole (r : ColeColeRow α) : ColeColeRow α := { r with is_delete := false }

/-- A pulled `standard_plot` row: the four data columns, `is_delete` defaulted. -/
def pulledStandardPlot (r : StandardPlotRow α) : StandardPlotRow α := { r with is_delete := false }

/-- Embeds `sync_server_to_sqlite`. Clears the six local tables bottom-up
(cole_cole, standard_plot, nanothickness, measurements, devices, users),
then bulk-inserts users, devices, measurements (the remote query joins
devices, so only measurements whose device exists are fetched), cole_cole and
standard_plot from the remote. No statement reloads nanothickness.
The source's `_normalize_value` converts Python value types (Decimal, datetime,
dict) in flight; at this typed abstraction it is the identity. -/
def sync_server_to_sqlite (remote : RemoteDB α) (db : LocalDB α) : LocalDB α :=
  let db := { db with cole_cole := ([] : List (ColeColeRow α)) }
  let db := { db with standard_plot := ([] : List (StandardPlotRow α)) }
  let db := { db with nanothickness := ([] : List (NanothicknessRow α)) }
  let db := { db with measurements := ([] : List LocalMeasurementRow) }
  let db := { db with devices := ([] : List DeviceRow) }
  let db := { db with users := ([] : List UserRow) }
  let db := { db with users := remote.users.map pulledUser }
  let db := { db with devices := remote.devices.map pulledDevice }
  let db := { db with measurements :=
    (remote.measurements.filter (fun (m : RemoteMeasurementRow) =>
      remote.devices.any (fun d => d.id == m.device_id))).map localMeasurementOfRemote }
  let db := { db with cole_cole := remote.cole_cole.map pulledColeCole }
  let db := { db with standard_plot := remote.standard_plot.map pulledStandardPlot }
  db

/-! ### Sync engine: push (local → remote) -/

/-- SQL `MAX(num_order)` over a list of remote measurement rows: NULL (none)
on the empty set, the maximum otherwise. -/
def maxNumOrder : List RemoteMeasurementRow → Option Int
  | [] => none
  | r :: rs =>
    match maxNumOrder rs with
    | none => some r.num_order
    | some m => some (max r.num_order m)

/-- The remote order-number computation of `sync_measurement_to_server`:
`COALESCE(MAX(num_order), 0) + 1` over the remote measurements of the device. -/
def next_num_order (remote : RemoteDB α) (device_id : String) : Int :=
  (maxNumOrder (remote.measurements.filter (fun r => r.device_id == device_id))).getD 0 + 1

/-- `INSERT ... ON CONFLICT (id) DO NOTHING` on the remote measurements table:
a no-op when a row with the same id is already present. -/
def insertMeasurementNoConflict (rows : List RemoteMeasurementRow)
    (r : RemoteMeasurementRow) : List RemoteMeasurementRow :=
  if rows.any (fun x => x.id == r.id) then rows else rows ++ [r]

/-- `INSERT ... ON CONFLICT DO NOTHING` on the remote cole_cole table; the
only unique constraint is the primary key id. -/
def insertColeColeNoConflict (rows : List (ColeColeRow α)) (r : ColeColeRow α) :
    List (ColeColeRow α) :=
  if rows.any (fun x => x.id == r.id) then rows else rows ++ [r]

/-- `INSERT ... ON CONFLICT DO NOTHING` on the remote standard_plot table. -/
def insertStandardPlotNoConflict (rows : List (StandardPlotRow α)) (r : StandardPlotRow α) :
    List (StandardPlotRow α) :=
  if rows.any (fun x => x.id == r.id) then rows else rows ++ [r]

/-- `INSERT ... ON CONFLICT DO NOTHING` on the remote nanothickness table. -/
def insertNanothicknessNoConflict (rows : List (NanothicknessRow α)) (r : NanothicknessRow α) :
    List (NanothicknessRow α) :=
  if rows.any (fun x => x.id == r.id) then rows else rows ++ [r]

/-- The remote measurement row built by the push INSERT: the local row's
columns plus the computed order number; the remote `is_delete` defaults. -/
def pushedMeasurementRow (m : LocalMeasurementRow) (n : Int) : RemoteMeasurementRow :=
  { id := m.id, device_id := m.device_id, num_order := n, name := m.name,
    created_by := m.created_by, created_at := m.created_at, is_delete := false }

/-- Embeds `sync_measurement_to_server`. Looks the measurement up locally
(`id = ? AND is_delete = 0`, fetchone), failing with not-found when absent;
computes the next order number for its device on the remote and inserts the
measurement there, a no-op when the id already exists remotely. -/
def sync_measurement_to_server (db : LocalDB α) (remote : RemoteDB α)
    (measurement_id : String) : Except ServiceError (RemoteDB α) :=
  match db.measurements.find? (fun m => m.id == measurement_id && !m.is_delete) with
  | none => .error .measurementNotFound
  | some m =>
    .ok { remote with
      measurements :=
        insertMeasurementNoConflict remote.measurements
          (pushedMeasurementRow m (next_num_order remote m.device_id)) }

/-- The remote cole_cole row a push INSERT creates from a local row: a fresh
id, the pushed measurement's id and the local row's value columns. -/
def ccPushRow (gen : Nat → String) (mid : String) (r : ColeColeRow α) (n : Nat) :
    ColeColeRow α :=
  { id := gen n, measurement_id := mid, frequency := r.frequency,
    resistance := r.resistance, reactance := r.reactance,
    capacitance := r.capacitance, is_delete := false }

/-- The remote standard_plot row a push INSERT creates from a local row. -/
def spPushRow (gen : Nat → String) (mid : String) (r : StandardPlotRow α) (n : Nat) :
    StandardPlotRow α :=
  { id := gen n, measurement_id := mid, time := r.time, voltage := r.voltage,
    is_delete := false }

/-- The remote nanothickness row a push INSERT creates from a local row. -/
def ntPushRow (gen : Nat → String) (mid : String) (r : NanothicknessRow α) (n : Nat) :
    NanothicknessRow α :=
  { id := gen n, measurement_id := mid, pos1 := r.pos1, pos2 := r.pos2,
    pos3 := r.pos3, pos4 := r.pos4, pos5 := r.pos5, is_delete := false }

/-- The cole_cole loop of `sync_sqlite_to_server`: for each non-deleted local
row of the measurement, insert a remote row under a freshly generated id.
`gen` stands for `uuid.uuid4()`, drawn at successive counter values. -/
def pushColeCole (gen : Nat → String) (localRows : List (ColeColeRow α))
    (measurement_id : String) (st : List (ColeColeRow α) × Nat) :
    List (ColeColeRow α) × Nat :=
  (localRows.filter (fun r => r.measurement_id == measurement_id && !r.is_delete)).foldl
    (fun st r =>
      (insertColeColeNoConflict st.1 (ccPushRow gen measurement_id r st.2), st.2 + 1))
    st

/-- The standard_plot loop of `sync_sqlite_to_server`. -/
def pushStandardPlot (gen : Nat → String) (localRows : List (StandardPlotRow α))
    (measurement_id : String) (st : List (StandardPlotRow α) × Nat) :
    List (StandardPlotRow α) × Nat :=
  (localRows.filter (fun r => r.measurement_id == measurement_id && !r.is_delete)).foldl
    (fun st r =>
      (insertStandardPlotNoConflict st.1 (spPushRow gen measurement_id r st.2), st.2 + 1))
    st

/-- The nanothickness loop of `sync_sqlite_to_server`. -/
def pushNanothickness (gen : Nat → String) (localRows : List (NanothicknessRow α))
    (measurement_id : String) (st : List (NanothicknessRow α) × Nat) :
    List (NanothicknessRow α) × Nat :=
  (localRows.filter (fun r => r.measurement_id == measurement_id && !r.is_delete)).foldl
    (fun st r =>
      (insertNanothicknessNoConflict st.1 (ntPushRow gen measurement_id r st.2), st.2 + 1))
    st

/-- Embeds `sync_sqlite_to_server`: first pushes the measurement row itself,
then pushes each of the three reading kinds; returns the remote state and the
id-generator counter after the push. -/
def sync_sqlite_to_server (gen : Nat → String) (n : Nat) (db : LocalDB α)
    (remote : RemoteDB α) (measurement_id : String) :
    Except ServiceError (RemoteDB α × Nat) :=
  match sync_measurement_to_server db remote measurement_id with
  | .error e => .error e
  | .ok remote1 =>
    let cc := pushColeCole gen db.cole_cole measurement_id (remote1.cole_cole, n)
    let sp := pushStandardPlot gen db.standard_plot measurement_id (remote1.standard_plot, cc.2)
    let nt := pushNanothickness gen db.nanothickness measurement_id (remote1.nanothickness, sp.2)
    .ok ({ remote1 with cole_cole := cc.1, standard_plot := sp.1, nanothickness := nt.1 }, nt.2)

/-! ### CSV ingestors -/

/-- A parsed CSV at the granularity the ingestion claims need: named columns
with their value lists (pandas stores a DataFrame column-wise). -/
structure Csv (α : Type) where
  cols : List (String × List α)
deriving DecidableEq

/-- Removes leading whitespace characters from a character list. -/
def dropLeadingWs : List Char → List Char
  | [] => []
  | c :: cs => if c.isWhitespace then dropLeadingWs cs else c :: cs

/-- Removes leading and trailing whitespace: trailing first (drop leading
whitespace of the reversal), then leading. -/
def trimChars (cs : List Char) : List Char :=
  dropLeadingWs (dropLeadingWs cs.reverse).reverse

/-- The header normalization of the ingestors, `c.strip().lower()`, spelled
at the character level: strip surrounding whitespace, then lowercase. -/
def normalizeHeader (s : String) : String :=
  String.mk ((trimChars s.data).map Char.toLower)

/-- The required column names absent from the (already normalized) columns;
the payload of the ingestion error message. -/
def missingRequired (required : List String) (cols : List (String × List α)) :
    List String :=
  required.filter (fun n => !(cols.any (fun c => c.1 == n)))

/-- Column selection `df[names]` on the normalized frame: pandas label
selection returns, for each requested label in order, every column carrying
that label — with duplicated labels (reachable once normalization merges raw
headers such as Time and TIME) each duplicate is returned. -/
def selectCols (cols : List (String × List α)) (names : List String) :
    List (String × List α) :=
  names.flatMap (fun n => cols.filter (fun c => c.1 == n))

/-- The shared shape of the three ingestors: normalize the headers, fail
naming the missing required columns when any are absent, otherwise project to
the required labels in their canonical order (every column of a duplicated
required label included, all other columns dropped). -/
def readCsvRequired (required : List String) (csv : Csv α) :
    Except (List String) (Csv α) :=
  let normalized := csv.cols.map (fun c => (normalizeHeader c.1, c.2))
  let missing := missingRequired required normalized
  if missing = [] then
    .ok ⟨selectCols normalized required⟩
  else .error missing

/-- The required columns of a Cole-Cole CSV. -/
def requiredColeCole : List String := ["frequency", "resistance", "reactance", "capacitance"]

/-- The required columns of a standard-plot CSV. -/
def requiredStandardPlot : List String := ["time", "voltage"]

/-- The required columns of a nanothickness CSV. -/
def requiredNanothickness : List String := ["pos1", "pos2", "pos3", "pos4", "pos5"]

/-- Embeds `read_cole_cole_csv`. -/
def read_cole_cole_csv (csv : Csv α) : Except (List String) (Csv α) :=
  readCsvRequired requiredColeCole csv

/-- Embeds `read_standard_plot_csv`. -/
def read_standard_plot_csv (csv : Csv α) : Except (List String) (Csv α) :=
  readCsvRequired requiredStandardPlot csv

/-- Modelled from the spec: `read_nanothickness_csv` is imported by the UI
from the sync service module but its definition is not among the provided
sources; the spec gives it the same normalize/validate/project contract as
the other two ingestors, with required columns pos1..pos5. -/
def read_nanothickness_csv (csv : Csv α) : Except (List String) (Csv α) :=
  readCsvRequired requiredNanothickness csv

/-! ## Theorems -/

/-- C1: the pull is a full refresh. Whatever the prior local state — any
local-only unpushed rows included — the result is determined by the remote
alone: the six tables are cleared and users, devices, measurements (those
whose device exists remotely), cole_cole and standard_plot are reloaded from
the remote, while nanothickness is left empty after every pull. -/
theorem pull_full_refresh_discards_local_state (remote : RemoteDB α) (db db' : LocalDB α) :
    sync_server_to_sqlite remote db = sync_server_to_sqlite remote db' ∧
    (sync_server_to_sqlite remote db).nanothickness = [] ∧
    (sync_server_to_sqlite remote db).users = remote.users.map pulledUser ∧
    (sync_server_to_sqlite remote db).devices = remote.devices.map pulledDevice ∧
    (sync_server_to_sqlite remote db).measurements =
      (remote.measurements.filter (fun (m : RemoteMeasurementRow) =>
        remote.devices.any (fun d => d.id == m.device_id))).map localMeasurementOfRemote ∧
    (sync_server_to_sqlite remote db).cole_cole = remote.cole_cole.map pulledColeCole ∧
    (sync_server_to_sqlite remote db).standard_plot =
      remote.standard_plot.map pulledStandardPlot :=
  ⟨rfl, rfl, rfl, rfl, rfl, rfl, rfl⟩

/-- A soft-deleted device row named "D". -/
def deviceDDeleted : DeviceRow :=
  { id := "d1", name := "D", structure_json := none, experiment_by := "e",
    created_by := "u", created_at := "t", is_delete := true }

/-- A local database holding a single soft-deleted device named "D". -/
def dbSoftDeletedDevice : LocalDB Int :=
  { users := [], devices := [deviceDDeleted], measurements := [],
    cole_cole := [], standard_plot := [], nanothickness := [] }

/-- C8 counterexample: the device-id query carries no is_delete filter, so a
soft-deleted device's name does resolve to its id, against the claim that it
must fail with a not-found error. -/
theorem get_device_id_resolves_soft_deleted_device :
    (dbSoftDeletedDevice.devices.all (fun d => d.is_delete)) = true ∧
    get_device_id dbSoftDeletedDevice "D" = Except.ok "d1" := by
  constructor
  · rfl
  · rfl

/-- C8 (amended): get_device_id fails with not-found exactly when no device
row — soft-deleted or not — carries the given name; get_measurement_id fails
exactly when no non-deleted measurement with the given name exists under a
device bearing the given device name (the measurement filter excludes
soft-deleted measurements, but the device's soft-delete flag is ignored). -/
theorem resolve_id_not_found_characterization (db : LocalDB α) (dn mn : String) :
    (get_device_id db dn = .error .deviceNotFound ↔ ∀ d ∈ db.devices, d.name ≠ dn) ∧
    (get_measurement_id db dn mn = .error .measurementNotFound ↔
      ¬∃ m ∈ db.measurements, m.name = mn ∧ m.is_delete = false ∧
        ∃ d ∈ db.devices, d.id = m.device_id ∧ d.name = dn) := by
  constructor
  · have hdev : (get_device_id db dn = Except.error ServiceError.deviceNotFound) ↔
        db.devices.find? (fun d => d.name == dn) = none := by
      unfold get_device_id
      cases h : db.devices.find? (fun d => d.name == dn) with
      | none => simp
      | some d => simp
    rw [hdev, List.find?_eq_none]
    simp
  · have hmea : (get_measurement_id db dn mn = Except.error ServiceError.measurementNotFound) ↔
        db.measurements.find? (fun m =>
          m.name == mn && !m.is_delete &&
          db.devices.any (fun d => d.id == m.device_id && d.name == dn)) = none := by
      unfold get_measurement_id
      cases h : db.measurements.find? (fun m =>
          m.name == mn && !m.is_delete &&
          db.devices.any (fun d => d.id == m.device_id && d.name == dn)) with
      | none => simp
      | some m => simp
    rw [hmea, List.find?_eq_none]
    simp [not_exists, Bool.not_eq_true]

/-- C9: get_device_structure never raises; its value is fully characterized:
none when the device name matches no row or the stored structure_json is NULL
or empty, the parsed object when the stored text parses, and the sentinel
error payload when a non-empty stored text fails to parse — the parse failure
is absorbed into the return value. -/
theorem get_device_structure_total_characterization {J : Type}
    (parse : String → Option J) (db : LocalDB α) (dn : String) :
    (db.devices.find? (fun d => d.name == dn) = none →
      get_device_structure parse db dn = none) ∧
    (∀ d, db.devices.find? (fun x => x.name == dn) = some d →
      ((d.structure_json = none ∨ d.structure_json = some "") →
        get_device_structure parse db dn = none) ∧
      (∀ s, d.structure_json = some s → s ≠ "" →
        (∀ j, parse s = some j →
          get_device_structure parse db dn = some (StructureResult.parsed j)) ∧
        (parse s = none →
          get_device_structure parse db dn = some StructureResult.invalidJson))) := by
  refine ⟨?_, ?_⟩
  · intro h
    simp [get_device_structure, h]
  · intro d hd
    refine ⟨?_, ?_⟩
    · rintro (h | h) <;> simp [get_device_structure, hd, h]
    · intro s hs hne
      refine ⟨?_, ?_⟩
      · intro j hj
        simp [get_device_structure, hd, hs, hne, hj]
      · intro hp
        simp [get_device_structure, hd, hs, hne, hp]

/-- A toy stand-in for the external JSON parser: accepts exactly the text ok. -/
def acceptsEmptyObject : String → Option Nat :=
  fun s => if s = "ok" then some 0 else none

/-- A device whose structure_json parses. -/
def deviceG : DeviceRow :=
  { id := "dg", name := "G", structure_json := some "ok", experiment_by := "e",
    created_by := "u", created_at := "t", is_delete := false }

/-- A device with malformed structure_json. -/
def deviceB : DeviceRow :=
  { id := "db", name := "B", structure_json := some "oops", experiment_by := "e",
    created_by := "u", created_at := "t", is_delete := false }

/-- A device with NULL structure_json. -/
def deviceE : DeviceRow :=
  { id := "de", name := "E", structure_json := none, experiment_by := "e",
    created_by := "u", created_at := "t", is_delete := false }

/-- A local database with the three structure cases. -/
def dbStructures : LocalDB Int :=
  { users := [], devices := [deviceG, deviceB, deviceE], measurements := [],
    cole_cole := [], standard_plot := [], nanothickness := [] }

/-- C9 witness: the parsed, invalid-JSON and null cases at concrete inputs. -/
theorem get_device_structure_cases_witness :
    get_device_structure acceptsEmptyObject dbStructures "G" =
      some (StructureResult.parsed 0) ∧
    get_device_structure acceptsEmptyObject dbStructures "B" =
      some StructureResult.invalidJson ∧
    get_device_structure acceptsEmptyObject dbStructures "E" = none ∧
    get_device_structure acceptsEmptyObject dbStructures "Z" = none := by
  refine ⟨?_, ?_, ?_, ?_⟩
  · exact (((get_device_structure_total_characterization acceptsEmptyObject dbStructures
      "G").2 deviceG (by decide)).2 "ok" rfl (by decide)).1 0 (by decide)
  · exact (((get_device_structure_total_characterization acceptsEmptyObject dbStructures
      "B").2 deviceB (by decide)).2 "oops" rfl (by decide)).2 (by decide)
  · exact ((get_device_structure_total_characterization acceptsEmptyObject dbStructures
      "E").2 deviceE (by decide)).1 (Or.inl rfl)
  · exact (get_device_structure_total_characterization acceptsEmptyObject dbStructures
      "Z").1 (by decide)

/-- C10: whenever measurement rows with the given id exist but all of them are
soft-deleted, is_measurement_owner returns false for every username — the
recorded creator included — and gives the same answer as on a database from
which those rows are absent altogether; the function is total. -/
theorem is_measurement_owner_false_for_soft_deleted (db : LocalDB α)
    (mid : String)
    (_hex : ∃ m ∈ db.measurements, m.id = mid)
    (hdel : ∀ m ∈ db.measurements, m.id = mid → m.is_delete = true) :
    ∀ username, is_measurement_owner db mid username = false ∧
      is_measurement_owner
        { db with measurements := db.measurements.filter (fun m => !(m.id == mid)) }
        mid username = false := by
  have hfind : db.measurements.find? (fun m => m.id == mid && !m.is_delete) = none := by
    rw [List.find?_eq_none]
    intro m hm
    simp only [Bool.and_eq_true, beq_iff_eq, Bool.not_eq_true', not_and]
    intro hid
    simp [hdel m hm hid]
  have hfind2 : (db.measurements.filter (fun m => !(m.id == mid))).find?
      (fun m => m.id == mid && !m.is_delete) = none := by
    rw [List.find?_eq_none]
    intro m hm
    have hne := (List.mem_filter.mp hm).2
    simp only [Bool.not_eq_true', beq_eq_false_iff_ne] at hne
    simp [hne]
  intro u
  exact ⟨by simp [is_measurement_owner, hfind], by simp [is_measurement_owner, hfind2]⟩

/-- A soft-deleted measurement row created by alice. -/
def measurementDeleted : LocalMeasurementRow :=
  { id := "m1", device_id := "d1", num_order := none, name := "M",
    created_by := "alice", created_at := "t", is_delete := true }

/-- A local database holding only that soft-deleted measurement. -/
def dbDeletedMeasurement : LocalDB Int :=
  { users := [], devices := [], measurements := [measurementDeleted],
    cole_cole := [], standard_plot := [], nanothickness := [] }

/-- C10 witness: even the creator gets false on the soft-deleted measurement. -/
theorem is_measurement_owner_soft_deleted_witness :
    is_measurement_owner dbDeletedMeasurement "m1" "alice" = false :=
  (is_measurement_owner_false_for_soft_deleted dbDeletedMeasurement "m1"
    ⟨measurementDeleted, by decide, rfl⟩ (by decide) "alice").1

/-- C7: create_measurement fails with the validation error exactly when a
non-deleted measurement with the same trimmed name already exists under the
same device; after a successful creation, creating the same name under the
same device fails, while creating it under a different (clash-free) device
still succeeds. -/
theorem create_measurement_duplicate_contract (db : LocalDB α)
    (dn d mn u id1 id2 t1 t2 : String) :
    (measurementNameTaken db d mn.trim = true →
      create_measurement db dn d mn u id1 t1 = .error .duplicateName) ∧
    (measurementNameTaken db d mn.trim = false →
      ∃ db1, create_measurement db dn d mn u id1 t1 = .ok db1 ∧
        create_measurement db1 dn d mn u id2 t2 = .error .duplicateName ∧
        (∀ d2 dn2, d2 ≠ d → measurementNameTaken db d2 mn.trim = false →
          ∃ db2, create_measurement db1 dn2 d2 mn u id2 t2 = .ok db2)) := by
  constructor
  · intro h
    simp [create_measurement, h]
  · intro h
    refine ⟨{ db with measurements := db.measurements ++
      [{ id := id1, device_id := d, num_order := none, name := mn.trim,
         created_by := u, created_at := t1, is_delete := false }] },
      by simp [create_measurement, h], ?_, ?_⟩
    · have htaken : measurementNameTaken
          { db with measurements := db.measurements ++
            [{ id := id1, device_id := d, num_order := none, name := mn.trim,
               created_by := u, created_at := t1, is_delete := false }] }
          d mn.trim = true := by
        simp [measurementNameTaken]
      simp [create_measurement, h, htaken]
    · intro d2 dn2 hne h2
      have hnot : measurementNameTaken
          { db with measurements := db.measurements ++
            [{ id := id1, device_id := d, num_order := none, name := mn.trim,
               created_by := u, created_at := t1, is_delete := false }] }
          d2 mn.trim = false := by
        simp only [measurementNameTaken, List.any_append, Bool.or_eq_false_iff]
        refine ⟨by simpa [measurementNameTaken] using h2, ?_⟩
        simp [Ne.symm hne]
      simp [create_measurement, hnot]

/-- An empty local database over the Int value type. -/
def dbEmpty : LocalDB Int :=
  { users := [], devices := [], measurements := [],
    cole_cole := [], standard_plot := [], nanothickness := [] }

/-- C7 witness: under the empty database, creating X under device D succeeds,
creating it again under D fails with the validation error, and creating it
under device E still succeeds. -/
theorem create_measurement_duplicate_witness :
    ∃ db1, create_measurement dbEmpty "D" "dD" "X" "alice" "id1" "t1" = .ok db1 ∧
      create_measurement db1 "D" "dD" "X" "alice" "id2" "t2" =
        .error .duplicateName ∧
      ∃ db2, create_measurement db1 "E" "dE" "X" "alice" "id2" "t2" = .ok db2 := by
  obtain ⟨db1, hok, hdup, hother⟩ :=
    (create_measurement_duplicate_contract dbEmpty "D" "dD" "X" "alice"
      "id1" "id2" "t1" "t2").2 (by decide)
  exact ⟨db1, hok, hdup, hother "dE" "E" (by decide) (by decide)⟩

/-- Membership in a conditionally updated list: an element either is the
update of a matching source row or is an untouched non-matching row. -/
theorem mem_cond_update {β : Type} {p : β → Bool} {f : β → β} {l : List β} {x : β}
    (hx : x ∈ l.map fun y => if p y then f y else y) :
    (∃ y, y ∈ l ∧ p y = true ∧ x = f y) ∨ (x ∈ l ∧ p x = false) := by
  rcases List.mem_map.mp hx with ⟨y, hy, hxy⟩
  by_cases h : p y
  · exact Or.inl ⟨y, hy, h, by rw [← hxy]; simp [h]⟩
  · have hxyeq : x = y := by rw [← hxy]; simp [h]
    subst hxyeq
    exact Or.inr ⟨hy, by simpa using h⟩

/-- A row the condition does not select survives a conditional update
unchanged. -/
theorem mem_cond_update_of_not {β : Type} {p : β → Bool} {f : β → β} {l : List β} {x : β}
    (hx : x ∈ l) (hp : p x = false) :
    x ∈ l.map fun y => if p y then f y else y := by
  refine List.mem_map.mpr ⟨x, hx, ?_⟩
  simp [hp]

/-- The four local UPDATE statements mark exactly the rows of the given
measurement: cascade on its rows, frame on everything else. -/
theorem markDeletedLocal_spec (db : LocalDB α) (mid : String) :
    (∀ x ∈ (markDeletedLocal db mid).measurements, x.id = mid → x.is_delete = true) ∧
    (∀ r ∈ (markDeletedLocal db mid).cole_cole, r.measurement_id = mid → r.is_delete = true) ∧
    (∀ r ∈ (markDeletedLocal db mid).standard_plot, r.measurement_id = mid → r.is_delete = true) ∧
    (∀ r ∈ (markDeletedLocal db mid).nanothickness, r.measurement_id = mid → r.is_delete = true) ∧
    (∀ x ∈ db.measurements, x.id ≠ mid → x ∈ (markDeletedLocal db mid).measurements) ∧
    (∀ r ∈ db.cole_cole, r.measurement_id ≠ mid → r ∈ (markDeletedLocal db mid).cole_cole) ∧
    (∀ r ∈ db.standard_plot, r.measurement_id ≠ mid → r ∈ (markDeletedLocal db mid).standard_plot) ∧
    (∀ r ∈ db.nanothickness, r.measurement_id ≠ mid → r ∈ (markDeletedLocal db mid).nanothickness) := by
  refine ⟨?_, ?_, ?_, ?_, ?_, ?_, ?_, ?_⟩
  · intro x hx hid
    have hx' : x ∈ db.measurements.map (fun y =>
        if y.id == mid then { y with is_delete := true } else y) := hx
    rcases mem_cond_update hx' with ⟨y, hy, hp, rfl⟩ | ⟨hxl, hp⟩
    · rfl
    · simp [hid] at hp
  · intro r hr hid
    have hr' : r ∈ db.cole_cole.map (fun y =>
        if y.measurement_id == mid then { y with is_delete := true } else y) := hr
    rcases mem_cond_update hr' with ⟨y, hy, hp, rfl⟩ | ⟨hrl, hp⟩
    · rfl
    · simp [hid] at hp
  · intro r hr hid
    have hr' : r ∈ db.standard_plot.map (fun y =>
        if y.measurement_id == mid then { y with is_delete := true } else y) := hr
    rcases mem_cond_update hr' with ⟨y, hy, hp, rfl⟩ | ⟨hrl, hp⟩
    · rfl
    · simp [hid] at hp
  · intro r hr hid
    have hr' : r ∈ db.nanothickness.map (fun y =>
        if y.measurement_id == mid then { y with is_delete := true } else y) := hr
    rcases mem_cond_update hr' with ⟨y, hy, hp, rfl⟩ | ⟨hrl, hp⟩
    · rfl
    · simp [hid] at hp
  · intro x hx hne
    have hx' : x ∈ db.measurements.map (fun y =>
        if y.id == mid then { y with is_delete := true } else y) :=
      mem_cond_update_of_not hx (by simp [hne])
    exact hx'
  · intro r hr hne
    have hr' : r ∈ db.cole_cole.map (fun y =>
        if y.measurement_id == mid then { y with is_delete := true } else y) :=
      mem_cond_update_of_not hr (by simp [hne])
    exact hr'
  · intro r hr hne
    have hr' : r ∈ db.standard_plot.map (fun y =>
        if y.measurement_id == mid then { y with is_delete := true } else y) :=
      mem_cond_update_of_not hr (by simp [hne])
    exact hr'
  · intro r hr hne
    have hr' : r ∈ db.nanothickness.map (fun y =>
        if y.measurement_id == mid then { y with is_delete := true } else y) :=
      mem_cond_update_of_not hr (by simp [hne])
    exact hr'

/-- The remote soft-delete propagation marks exactly the rows of the given
measurement on the remote, leaving every other row in place. -/
theorem sync_soft_delete_to_server_spec (remote : RemoteDB α) (mid : String) :
    (∀ x ∈ (sync_soft_delete_to_server remote mid).measurements, x.id = mid → x.is_delete = true) ∧
    (∀ r ∈ (sync_soft_delete_to_server remote mid).cole_cole, r.measurement_id = mid → r.is_delete = true) ∧
    (∀ r ∈ (sync_soft_delete_to_server remote mid).standard_plot, r.measurement_id = mid → r.is_delete = true) ∧
    (∀ r ∈ (sync_soft_delete_to_server remote mid).nanothickness, r.measurement_id = mid → r.is_delete = true) ∧
    (∀ x ∈ remote.measurements, x.id ≠ mid → x ∈ (sync_soft_delete_to_server remote mid).measurements) ∧
    (∀ r ∈ remote.cole_cole, r.measurement_id ≠ mid → r ∈ (sync_soft_delete_to_server remote mid).cole_cole) ∧
    (∀ r ∈ remote.standard_plot, r.measurement_id ≠ mid → r ∈ (sync_soft_delete_to_server remote mid).standard_plot) ∧
    (∀ r ∈ remote.nanothickness, r.measurement_id ≠ mid → r ∈ (sync_soft_delete_to_server remote mid).nanothickness) := by
  refine ⟨?_, ?_, ?_, ?_, ?_, ?_, ?_, ?_⟩
  · intro x hx hid
    have hx' : x ∈ remote.measurements.map (fun y =>
        if y.id == mid then { y with is_delete := true } else y) := hx
    rcases mem_cond_update hx' with ⟨y, hy, hp, rfl⟩ | ⟨hxl, hp⟩
    · rfl
    · simp [hid] at hp
  · intro r hr hid
    have hr' : r ∈ remote.cole_cole.map (fun y =>
        if y.measurement_id == mid then { y with is_delete := true } else y) := hr
    rcases mem_cond_update hr' with ⟨y, hy, hp, rfl⟩ | ⟨hrl, hp⟩
    · rfl
    · simp [hid] at hp
  · intro r hr hid
    have hr' : r ∈ remote.standard_plot.map (fun y =>
        if y.measurement_id == mid then { y with is_delete := true } else y) := hr
    rcases mem_cond_update hr' with ⟨y, hy, hp, rfl⟩ | ⟨hrl, hp⟩
    · rfl
    · simp [hid] at hp
  · intro r hr hid
    have hr' : r ∈ remote.nanothickness.map (fun y =>
        if y.measurement_id == mid then { y with is_delete := true } else y) := hr
    rcases mem_cond_update hr' with ⟨y, hy, hp, rfl⟩ | ⟨hrl, hp⟩
    · rfl
    · simp [hid] at hp
  · intro x hx hne
    have hx' : x ∈ remote.measurements.map (fun y =>
        if y.id == mid then { y with is_delete := true } else y) :=
      mem_cond_update_of_not hx (by simp [hne])
    exact hx'
  · intro r hr hne
    have hr' : r ∈ remote.cole_cole.map (fun y =>
        if y.measurement_id == mid then { y with is_delete := true } else y) :=
      mem_cond_update_of_not hr (by simp [hne])
    exact hr'
  · intro r hr hne
    have hr' : r ∈ remote.standard_plot.map (fun y =>
        if y.measurement_id == mid then { y with is_delete := true } else y) :=
      mem_cond_update_of_not hr (by simp [hne])
    exact hr'
  · intro r hr hne
    have hr' : r ∈ remote.nanothickness.map (fun y =>
        if y.measurement_id == mid then { y with is_delete := true } else y) :=
      mem_cond_update_of_not hr (by simp [hne])
    exact hr'

/-- C4: when the creator soft-deletes an existing non-deleted measurement and
the remote propagation succeeds, the measurement row and every row of the
three reading tables carrying its id get is_delete set, locally and then on
the remote, while every other measurement row and every reading row of other
measurements survives unchanged in both stores. -/
theorem soft_delete_cascade_and_frame (db : LocalDB α) (remote : RemoteDB α)
    (dn mn u : String) (m : LocalMeasurementRow)
    (hfind : db.measurements.find? (fun x => x.name == mn && !x.is_delete &&
        db.devices.any (fun d => d.id == x.device_id && d.name == dn)) = some m)
    (howner : m.created_by = u) :
    ∃ dbr remr, soft_delete_measurement true db remote dn mn u = ⟨dbr, remr, none⟩ ∧
      (∀ x ∈ dbr.measurements, x.id = m.id → x.is_delete = true) ∧
      (∀ r ∈ dbr.cole_cole, r.measurement_id = m.id → r.is_delete = true) ∧
      (∀ r ∈ dbr.standard_plot, r.measurement_id = m.id → r.is_delete = true) ∧
      (∀ r ∈ dbr.nanothickness, r.measurement_id = m.id → r.is_delete = true) ∧
      (∀ x ∈ db.measurements, x.id ≠ m.id → x ∈ dbr.measurements) ∧
      (∀ r ∈ db.cole_cole, r.measurement_id ≠ m.id → r ∈ dbr.cole_cole) ∧
      (∀ r ∈ db.standard_plot, r.measurement_id ≠ m.id → r ∈ dbr.standard_plot) ∧
      (∀ r ∈ db.nanothickness, r.measurement_id ≠ m.id → r ∈ dbr.nanothickness) ∧
      (∀ x ∈ remr.measurements, x.id = m.id → x.is_delete = true) ∧
      (∀ r ∈ remr.cole_cole, r.measurement_id = m.id → r.is_delete = true) ∧
      (∀ r ∈ remr.standard_plot, r.measurement_id = m.id → r.is_delete = true) ∧
      (∀ r ∈ remr.nanothickness, r.measurement_id = m.id → r.is_delete = true) ∧
      (∀ x ∈ remote.measurements, x.id ≠ m.id → x ∈ remr.measurements) ∧
      (∀ r ∈ remote.cole_cole, r.measurement_id ≠ m.id → r ∈ remr.cole_cole) ∧
      (∀ r ∈ remote.standard_plot, r.measurement_id ≠ m.id → r ∈ remr.standard_plot) ∧
      (∀ r ∈ remote.nanothickness, r.measurement_id ≠ m.id → r ∈ remr.nanothickness) := by
  refine ⟨markDeletedLocal db m.id, sync_soft_delete_to_server remote m.id, ?_, ?_⟩
  · simp [soft_delete_measurement, hfind, howner]
  · obtain ⟨l1, l2, l3, l4, l5, l6, l7, l8⟩ := markDeletedLocal_spec db m.id
    obtain ⟨r1, r2, r3, r4, r5, r6, r7, r8⟩ := sync_soft_delete_to_server_spec remote m.id
    exact ⟨l1, l2, l3, l4, l5, l6, l7, l8, r1, r2, r3, r4, r5, r6, r7, r8⟩

/-- C5: the error contract of soft_delete_measurement. No matching non-deleted
measurement: not-found error, both stores untouched. Acting user differs from
the recorded creator: permission error, both stores untouched. Local delete
succeeds but the remote propagation fails: the local soft delete is kept (not
rolled back), the remote is unchanged, and the composite error is raised. -/
theorem soft_delete_error_contract (db : LocalDB α) (remote : RemoteDB α)
    (dn mn u : String) :
    (∀ remote_ok, db.measurements.find? (fun x => x.name == mn && !x.is_delete &&
        db.devices.any (fun d => d.id == x.device_id && d.name == dn)) = none →
      soft_delete_measurement remote_ok db remote dn mn u =
        ⟨db, remote, some .notFound⟩) ∧
    (∀ remote_ok m, db.measurements.find? (fun x => x.name == mn && !x.is_delete &&
        db.devices.any (fun d => d.id == x.device_id && d.name == dn)) = some m →
      m.created_by ≠ u →
      soft_delete_measurement remote_ok db remote dn mn u =
        ⟨db, remote, some .permission⟩) ∧
    (∀ m, db.measurements.find? (fun x => x.name == mn && !x.is_delete &&
        db.devices.any (fun d => d.id == x.device_id && d.name == dn)) = some m →
      m.created_by = u →
      soft_delete_measurement false db remote dn mn u =
        ⟨markDeletedLocal db m.id, remote, some .localDeletedRemoteSyncFailed⟩ ∧
      (∀ x ∈ (markDeletedLocal db m.id).measurements, x.id = m.id →
        x.is_delete = true)) := by
  refine ⟨?_, ?_, ?_⟩
  · intro remote_ok h
    simp [soft_delete_measurement, h]
  · intro remote_ok m hm hne
    simp [soft_delete_measurement, hm, hne]
  · intro m hm he
    exact ⟨by simp [soft_delete_measurement, hm, he],
      (markDeletedLocal_spec db m.id).1⟩

/-! Concrete fixtures for the soft-delete witnesses: a live device "D", a
measurement "X" by alice with one reading row per kind, and a sibling
measurement "Y" with its own reading rows. -/

/-- The live device "D". -/
def deviceDLive : DeviceRow :=
  { id := "dD", name := "D", structure_json := none, experiment_by := "e",
    created_by := "u", created_at := "t", is_delete := false }

/-- Measurement "X" under device "D", created by alice. -/
def measurementX : LocalMeasurementRow :=
  { id := "mX", device_id := "dD", num_order := none, name := "X",
    created_by := "alice", created_at := "t", is_delete := false }

/-- Sibling measurement "Y" under device "D". -/
def measurementY : LocalMeasurementRow :=
  { id := "mY", device_id := "dD", num_order := none, name := "Y",
    created_by := "alice", created_at := "t", is_delete := false }

/-- A cole_cole row of measurement "X". -/
def ccRowX : ColeColeRow Int :=
  { id := "c1", measurement_id := "mX", frequency := 1, resistance := 2,
    reactance := 3, capacitance := 4, is_delete := false }

/-- A cole_cole row of the sibling measurement "Y". -/
def ccRowY : ColeColeRow Int :=
  { id := "c2", measurement_id := "mY", frequency := 5, resistance := 6,
    reactance := 7, capacitance := 8, is_delete := false }

/-- A standard_plot row of measurement "X". -/
def spRowX : StandardPlotRow Int :=
  { id := "s1", measurement_id := "mX", time := 0, voltage := 1, is_delete := false }

/-- A standard_plot row of the sibling measurement "Y". -/
def spRowY : StandardPlotRow Int :=
  { id := "s2", measurement_id := "mY", time := 2, voltage := 3, is_delete := false }

/-- A nanothickness row of measurement "X". -/
def ntRowX : NanothicknessRow Int :=
  { id := "n1", measurement_id := "mX", pos1 := 1, pos2 := 2, pos3 := 3,
    pos4 := 4, pos5 := 5, is_delete := false }

/-- A nanothickness row of the sibling measurement "Y". -/
def ntRowY : NanothicknessRow Int :=
  { id := "n2", measurement_id := "mY", pos1 := 6, pos2 := 7, pos3 := 8,
    pos4 := 9, pos5 := 10, is_delete := false }

/-- The local fixture database. -/
def dbFixture : LocalDB Int :=
  { users := [], devices := [deviceDLive], measurements := [measurementX, measurementY],
    cole_cole := [ccRowX, ccRowY], standard_plot := [spRowX, spRowY],
    nanothickness := [ntRowX, ntRowY] }

/-- The remote measurement mirroring "X". -/
def remoteMeasurementX : RemoteMeasurementRow :=
  { id := "mX", device_id := "dD", num_order := 1, name := "X",
    created_by := "alice", created_at := "t", is_delete := false }

/-- The remote measurement mirroring "Y". -/
def remoteMeasurementY : RemoteMeasurementRow :=
  { id := "mY", device_id := "dD", num_order := 2, name := "Y",
    created_by := "alice", created_at := "t", is_delete := false }

/-- The remote fixture database. -/
def remoteFixture : RemoteDB Int :=
  { users := [], devices := [deviceDLive],
    measurements := [remoteMeasurementX, remoteMeasurementY],
    cole_cole := [ccRowX, ccRowY], standard_plot := [spRowX, spRowY],
    nanothickness := [ntRowX, ntRowY] }

/-- C4 witness: alice soft-deletes "X" under "D" with the remote reachable;
the call succeeds, the rows of "X" are marked on both stores and the sibling
cole_cole row of "Y" survives locally. -/
theorem soft_delete_cascade_witness :
    ∃ dbr remr, soft_delete_measurement true dbFixture remoteFixture "D" "X" "alice" =
        ⟨dbr, remr, none⟩ ∧
      (∀ x ∈ dbr.measurements, x.id = "mX" → x.is_delete = true) ∧
      (∀ r ∈ dbr.cole_cole, r.measurement_id = "mX" → r.is_delete = true) ∧
      ccRowY ∈ dbr.cole_cole ∧
      (∀ x ∈ remr.measurements, x.id = "mX" → x.is_delete = true) := by
  obtain ⟨dbr, remr, heq, h1, h2, _, _, _, hfcc, _, _, h9, _⟩ :=
    soft_delete_cascade_and_frame dbFixture remoteFixture "D" "X" "alice"
      measurementX (by decide) rfl
  exact ⟨dbr, remr, heq, h1, h2, hfcc ccRowY (by decide) (by decide), h9⟩

/-- An empty remote database over the Int value type. -/
def remoteEmpty : RemoteDB Int :=
  { users := [], devices := [], measurements := [],
    cole_cole := [], standard_plot := [], nanothickness := [] }

/-- C5 witness: the not-found case on an empty database, the permission case
for bob on alice's measurement, and the composite local-kept/remote-failed
case, each at concrete inputs. -/
theorem soft_delete_error_witness :
    soft_delete_measurement true dbEmpty remoteEmpty "D" "X" "alice" =
      ⟨dbEmpty, remoteEmpty, some .notFound⟩ ∧
    soft_delete_measurement true dbFixture remoteFixture "D" "X" "bob" =
      ⟨dbFixture, remoteFixture, some .permission⟩ ∧
    soft_delete_measurement false dbFixture remoteFixture "D" "X" "alice" =
      ⟨markDeletedLocal dbFixture "mX", remoteFixture,
       some .localDeletedRemoteSyncFailed⟩ := by
  refine ⟨?_, ?_, ?_⟩
  · exact (soft_delete_error_contract dbEmpty remoteEmpty "D" "X" "alice").1
      true (by decide)
  · exact (soft_delete_error_contract dbFixture remoteFixture "D" "X" "bob").2.1
      true measurementX (by decide) (by decide)
  · exact ((soft_delete_error_contract dbFixture remoteFixture "D" "X" "alice").2.2
      measurementX (by decide) rfl).1

/-- Every row of a list is bounded by the SQL maximum of its num_order
column, which exists as soon as the list is inhabited. -/
theorem mem_le_maxNumOrder {rows : List RemoteMeasurementRow}
    {r : RemoteMeasurementRow} (hr : r ∈ rows) :
    ∃ M, maxNumOrder rows = some M ∧ r.num_order ≤ M := by
  induction rows with
  | nil => cases hr
  | cons x xs ih =>
    rcases List.mem_cons.mp hr with rfl | hmem
    · cases hxs : maxNumOrder xs with
      | none => exact ⟨r.num_order, by simp [maxNumOrder, hxs], le_refl _⟩
      | some m => exact ⟨max r.num_order m, by simp [maxNumOrder, hxs], le_max_left _ _⟩
    · obtain ⟨M, hM, hle⟩ := ih hmem
      exact ⟨max x.num_order M, by simp [maxNumOrder, hM], le_trans hle (le_max_right _ _)⟩

/-- C2: pushing a measurement whose id has no non-deleted local row fails with
the not-found error; otherwise, when the id is already present remotely the
remote store is returned unchanged (idempotent insert), and when it is absent
the measurement is appended with an order number strictly greater than every
existing remote order number of its device — in particular 1 when the device
has no remote measurement at all. -/
theorem sync_measurement_to_server_contract (db : LocalDB α) (remote : RemoteDB α)
    (mid : String) :
    ((∀ m ∈ db.measurements, m.id = mid → m.is_delete = true) →
      sync_measurement_to_server db remote mid = .error .measurementNotFound) ∧
    (∀ m, db.measurements.find? (fun x => x.id == mid && !x.is_delete) = some m →
      ((remote.measurements.any (fun x => x.id == m.id) = true →
        sync_measurement_to_server db remote mid = .ok remote) ∧
       (remote.measurements.any (fun x => x.id == m.id) = false →
        ∃ row, sync_measurement_to_server db remote mid =
            .ok { remote with measurements := remote.measurements ++ [row] } ∧
          row.id = m.id ∧ row.device_id = m.device_id ∧ row.name = m.name ∧
          row.created_by = m.created_by ∧ row.created_at = m.created_at ∧
          row.num_order = next_num_order remote m.device_id ∧
          (∀ r ∈ remote.measurements, r.device_id = m.device_id →
            r.num_order < row.num_order) ∧
          ((∀ r ∈ remote.measurements, r.device_id ≠ m.device_id) →
            row.num_order = 1)))) := by
  refine ⟨?_, ?_⟩
  · intro h
    have hfind : db.measurements.find? (fun x => x.id == mid && !x.is_delete) = none := by
      rw [List.find?_eq_none]
      intro x hx
      simp only [Bool.and_eq_true, beq_iff_eq, Bool.not_eq_true', not_and]
      intro hid
      simp [h x hx hid]
    simp [sync_measurement_to_server, hfind]
  · intro m hm
    have hred : sync_measurement_to_server db remote mid =
        Except.ok { remote with
          measurements :=
            insertMeasurementNoConflict remote.measurements
              (pushedMeasurementRow m (next_num_order remote m.device_id)) } := by
      simp [sync_measurement_to_server, hm]
    constructor
    · intro hany
      rw [hred]
      simp only [insertMeasurementNoConflict, pushedMeasurementRow, hany, if_true]
    · intro hany
      refine ⟨pushedMeasurementRow m (next_num_order remote m.device_id),
        ?_, rfl, rfl, rfl, rfl, rfl, rfl, ?_, ?_⟩
      · rw [hred]
        simp only [insertMeasurementNoConflict, pushedMeasurementRow, hany,
          Bool.false_eq_true, if_false]
      · intro r hr hdev
        have hrf : r ∈ remote.measurements.filter
            (fun x => x.device_id == m.device_id) :=
          List.mem_filter.mpr ⟨hr, by simp [hdev]⟩
        obtain ⟨M, hM, hle⟩ := mem_le_maxNumOrder hrf
        show r.num_order < next_num_order remote m.device_id
        simp only [next_num_order, hM, Option.getD_some]
        omega
      · intro h
        have hfil : remote.measurements.filter
            (fun x => x.device_id == m.device_id) = [] := by
          rw [List.filter_eq_nil_iff]
          intro a ha
          simp [h a ha]
        show next_num_order remote m.device_id = 1
        simp [next_num_order, hfil, maxNumOrder]

/-- A local measurement "Z" under device "D", not yet on the remote. -/
def measurementZ : LocalMeasurementRow :=
  { id := "mZ", device_id := "dD", num_order := none, name := "Z",
    created_by := "alice", created_at := "t", is_delete := false }

/-- The local database holding only measurement "Z". -/
def dbPush : LocalDB Int :=
  { users := [], devices := [deviceDLive], measurements := [measurementZ],
    cole_cole := [], standard_plot := [], nanothickness := [] }

/-- The remote database where device "D" already has order numbers 1 and 2. -/
def remotePush : RemoteDB Int :=
  { users := [], devices := [deviceDLive],
    measurements := [remoteMeasurementX, remoteMeasurementY],
    cole_cole := [], standard_plot := [], nanothickness := [] }

/-- C2 witness: with remote order numbers 1 and 2 under device "D", pushing
the local measurement "Z" appends it with order number 3. -/
theorem sync_measurement_order_witness :
    next_num_order remotePush "dD" = 3 ∧
    ∃ row, sync_measurement_to_server dbPush remotePush "mZ" =
        .ok { remotePush with measurements := remotePush.measurements ++ [row] } ∧
      row.id = "mZ" ∧ row.num_order = 3 := by
  refine ⟨by decide, ?_⟩
  obtain ⟨row, heq, hid, _, _, _, _, hnum, _, _⟩ :=
    ((sync_measurement_to_server_contract dbPush remotePush "mZ").2
      measurementZ (by decide)).2 (by decide)
  exact ⟨row, heq, hid, by rw [hnum]; decide⟩

/-! ### Push of reading rows: the appended-row lists -/

/-- The value columns of a cole_cole row. -/
def ccValues (r : ColeColeRow α) : α × α × α × α :=
  (r.frequency, r.resistance, r.reactance, r.capacitance)

/-- The value columns of a standard_plot row. -/
def spValues (r : StandardPlotRow α) : α × α := (r.time, r.voltage)

/-- The value columns of a nanothickness row. -/
def ntValues (r : NanothicknessRow α) : α × α × α × α × α :=
  (r.pos1, r.pos2, r.pos3, r.pos4, r.pos5)

/-- The remote cole_cole rows created by one push loop from the given local
rows, with ids drawn from the generator starting at the given counter. -/
def pushedColeColeRows (gen : Nat → String) (mid : String) :
    List (ColeColeRow α) → Nat → List (ColeColeRow α)
  | [], _ => []
  | r :: rs, n => ccPushRow gen mid r n :: pushedColeColeRows gen mid rs (n + 1)

/-- The remote standard_plot rows created by one push loop. -/
def pushedStandardPlotRows (gen : Nat → String) (mid : String) :
    List (StandardPlotRow α) → Nat → List (StandardPlotRow α)
  | [], _ => []
  | r :: rs, n => spPushRow gen mid r n :: pushedStandardPlotRows gen mid rs (n + 1)

/-- The remote nanothickness rows created by one push loop. -/
def pushedNanothicknessRows (gen : Nat → String) (mid : String) :
    List (NanothicknessRow α) → Nat → List (NanothicknessRow α)
  | [], _ => []
  | r :: rs, n => ntPushRow gen mid r n :: pushedNanothicknessRows gen mid rs (n + 1)

/-- The pushed rows carry exactly the source rows' value columns, in order. -/
theorem pushedColeColeRows_map_values (gen : Nat → String) (mid : String) :
    ∀ (ls : List (ColeColeRow α)) (n : Nat),
      (pushedColeColeRows gen mid ls n).map ccValues = ls.map ccValues := by
  intro ls
  induction ls with
  | nil => intro n; rfl
  | cons r rs ih => intro n; simp [pushedColeColeRows, ccPushRow, ccValues, ih]

/-- The pushed standard_plot rows carry the source rows' values. -/
theorem pushedStandardPlotRows_map_values (gen : Nat → String) (mid : String) :
    ∀ (ls : List (StandardPlotRow α)) (n : Nat),
      (pushedStandardPlotRows gen mid ls n).map spValues = ls.map spValues := by
  intro ls
  induction ls with
  | nil => intro n; rfl
  | cons r rs ih => intro n; simp [pushedStandardPlotRows, spPushRow, spValues, ih]

/-- The pushed nanothickness rows carry the source rows' values. -/
theorem pushedNanothicknessRows_map_values (gen : Nat → String) (mid : String) :
    ∀ (ls : List (NanothicknessRow α)) (n : Nat),
      (pushedNanothicknessRows gen mid ls n).map ntValues = ls.map ntValues := by
  intro ls
  induction ls with
  | nil => intro n; rfl
  | cons r rs ih => intro n; simp [pushedNanothicknessRows, ntPushRow, ntValues, ih]

/-- Every pushed cole_cole row's id comes from the generator at a counter in
the consumed range. -/
theorem mem_pushedColeColeRows_id {gen : Nat → String} {mid : String} :
    ∀ {ls : List (ColeColeRow α)} {n : Nat} {r : ColeColeRow α},
      r ∈ pushedColeColeRows gen mid ls n →
      ∃ i, n ≤ i ∧ i < n + ls.length ∧ r.id = gen i := by
  intro ls
  induction ls with
  | nil => intro n r hr; cases hr
  | cons x xs ih =>
    intro n r hr
    rcases List.mem_cons.mp hr with rfl | hmem
    · exact ⟨n, le_refl n, by simp, rfl⟩
    · obtain ⟨i, h1, h2, h3⟩ := ih hmem
      exact ⟨i, by omega, by simp; omega, h3⟩

/-- Every pushed standard_plot row's id comes from the consumed range. -/
theorem mem_pushedStandardPlotRows_id {gen : Nat → String} {mid : String} :
    ∀ {ls : List (StandardPlotRow α)} {n : Nat} {r : StandardPlotRow α},
      r ∈ pushedStandardPlotRows gen mid ls n →
      ∃ i, n ≤ i ∧ i < n + ls.length ∧ r.id = gen i := by
  intro ls
  induction ls with
  | nil => intro n r hr; cases hr
  | cons x xs ih =>
    intro n r hr
    rcases List.mem_cons.mp hr with rfl | hmem
    · exact ⟨n, le_refl n, by simp, rfl⟩
    · obtain ⟨i, h1, h2, h3⟩ := ih hmem
      exact ⟨i, by omega, by simp; omega, h3⟩

/-- Every pushed nanothickness row's id comes from the consumed range. -/
theorem mem_pushedNanothicknessRows_id {gen : Nat → String} {mid : String} :
    ∀ {ls : List (NanothicknessRow α)} {n : Nat} {r : NanothicknessRow α},
      r ∈ pushedNanothicknessRows gen mid ls n →
      ∃ i, n ≤ i ∧ i < n + ls.length ∧ r.id = gen i := by
  intro ls
  induction ls with
  | nil => intro n r hr; cases hr
  | cons x xs ih =>
    intro n r hr
    rcases List.mem_cons.mp hr with rfl | hmem
    · exact ⟨n, le_refl n, by simp, rfl⟩
    · obtain ⟨i, h1, h2, h3⟩ := ih hmem
      exact ⟨i, by omega, by simp; omega, h3⟩

/-- With an injective generator producing ids absent from the remote table,
the cole_cole push loop appends exactly the pushed rows and advances the
counter by the number of non-deleted local rows of the measurement. -/
theorem pushColeCole_spec (gen : Nat → String) (mid : String)
    (hg : ∀ i j, gen i = gen j → i = j) (locals : List (ColeColeRow α)) :
    ∀ (rows : List (ColeColeRow α)) (n : Nat),
      (∀ k, n ≤ k → ∀ r ∈ rows, r.id ≠ gen k) →
      pushColeCole gen locals mid (rows, n) =
        (rows ++ pushedColeColeRows gen mid
          (locals.filter (fun r => r.measurement_id == mid && !r.is_delete)) n,
         n + (locals.filter (fun r => r.measurement_id == mid && !r.is_delete)).length) := by
  have aux : ∀ (ls rows : List (ColeColeRow α)) (n : Nat),
      (∀ k, n ≤ k → ∀ r ∈ rows, r.id ≠ gen k) →
      ls.foldl (fun st r =>
        (insertColeColeNoConflict st.1 (ccPushRow gen mid r st.2), st.2 + 1)) (rows, n) =
      (rows ++ pushedColeColeRows gen mid ls n, n + ls.length) := by
    intro ls
    induction ls with
    | nil => intro rows n h; simp [pushedColeColeRows]
    | cons r rs ih =>
      intro rows n h
      simp only [List.foldl_cons]
      have hnotin : (rows.any (fun x => x.id == (ccPushRow gen mid r n).id)) = false := by
        rw [List.any_eq_false]
        intro x hx
        simp [ccPushRow, h n (le_refl n) x hx]
      have hins : insertColeColeNoConflict rows (ccPushRow gen mid r n) =
          rows ++ [ccPushRow gen mid r n] := by
        simp only [insertColeColeNoConflict, hnotin, Bool.false_eq_true, if_false]
      rw [hins]
      have h' : ∀ k, n + 1 ≤ k → ∀ x ∈ rows ++ [ccPushRow gen mid r n], x.id ≠ gen k := by
        intro k hk x hx
        rcases List.mem_append.mp hx with hx | hx
        · exact h k (by omega) x hx
        · have hxeq : x = ccPushRow gen mid r n := by simpa using hx
          subst hxeq
          show gen n ≠ gen k
          intro hEq
          have := hg _ _ hEq
          omega
      rw [ih (rows ++ [ccPushRow gen mid r n]) (n + 1) h']
      simp only [Prod.mk.injEq]
      constructor
      · simp [pushedColeColeRows, List.append_assoc]
      · simp only [List.length_cons]
        omega
  intro rows n h
  exact aux _ rows n h

/-- With an injective generator producing ids absent from the remote table,
the standard_plot push loop appends exactly the pushed rows and advances the
counter by the number of non-deleted local rows of the measurement. -/
theorem pushStandardPlot_spec (gen : Nat → String) (mid : String)
    (hg : ∀ i j, gen i = gen j → i = j) (locals : List (StandardPlotRow α)) :
    ∀ (rows : List (StandardPlotRow α)) (n : Nat),
      (∀ k, n ≤ k → ∀ r ∈ rows, r.id ≠ gen k) →
      pushStandardPlot gen locals mid (rows, n) =
        (rows ++ pushedStandardPlotRows gen mid
          (locals.filter (fun r => r.measurement_id == mid && !r.is_delete)) n,
         n + (locals.filter (fun r => r.measurement_id == mid && !r.is_delete)).length) := by
  have aux : ∀ (ls rows : List (StandardPlotRow α)) (n : Nat),
      (∀ k, n ≤ k → ∀ r ∈ rows, r.id ≠ gen k) →
      ls.foldl (fun st r =>
        (insertStandardPlotNoConflict st.1 (spPushRow gen mid r st.2), st.2 + 1)) (rows, n) =
      (rows ++ pushedStandardPlotRows gen mid ls n, n + ls.length) := by
    intro ls
    induction ls with
    | nil => intro rows n h; simp [pushedStandardPlotRows]
    | cons r rs ih =>
      intro rows n h
      simp only [List.foldl_cons]
      have hnotin : (rows.any (fun x => x.id == (spPushRow gen mid r n).id)) = false := by
        rw [List.any_eq_false]
        intro x hx
        simp [spPushRow, h n (le_refl n) x hx]
      have hins : insertStandardPlotNoConflict rows (spPushRow gen mid r n) =
          rows ++ [spPushRow gen mid r n] := by
        simp only [insertStandardPlotNoConflict, hnotin, Bool.false_eq_true, if_false]
      rw [hins]
      have h' : ∀ k, n + 1 ≤ k → ∀ x ∈ rows ++ [spPushRow gen mid r n], x.id ≠ gen k := by
        intro k hk x hx
        rcases List.mem_append.mp hx with hx | hx
        · exact h k (by omega) x hx
        · have hxeq : x = spPushRow gen mid r n := by simpa using hx
          subst hxeq
          show gen n ≠ gen k
          intro hEq
          have := hg _ _ hEq
          omega
      rw [ih (rows ++ [spPushRow gen mid r n]) (n + 1) h']
      simp only [Prod.mk.injEq]
      constructor
      · simp [pushedStandardPlotRows, List.append_assoc]
      · simp only [List.length_cons]
        omega
  intro rows n h
  exact aux _ rows n h

/-- With an injective generator producing ids absent from the remote table,
the nanothickness push loop appends exactly the pushed rows and advances the
counter by the number of non-deleted local rows of the measurement. -/
theorem pushNanothickness_spec (gen : Nat → String) (mid : String)
    (hg : ∀ i j, gen i = gen j → i = j) (locals : List (NanothicknessRow α)) :
    ∀ (rows : List (NanothicknessRow α)) (n : Nat),
      (∀ k, n ≤ k → ∀ r ∈ rows, r.id ≠ gen k) →
      pushNanothickness gen locals mid (rows, n) =
        (rows ++ pushedNanothicknessRows gen mid
          (locals.filter (fun r => r.measurement_id == mid && !r.is_delete)) n,
         n + (locals.filter (fun r => r.measurement_id == mid && !r.is_delete)).length) := by
  have aux : ∀ (ls rows : List (NanothicknessRow α)) (n : Nat),
      (∀ k, n ≤ k → ∀ r ∈ rows, r.id ≠ gen k) →
      ls.foldl (fun st r =>
        (insertNanothicknessNoConflict st.1 (ntPushRow gen mid r st.2), st.2 + 1)) (rows, n) =
      (rows ++ pushedNanothicknessRows gen mid ls n, n + ls.length) := by
    intro ls
    induction ls with
    | nil => intro rows n h; simp [pushedNanothicknessRows]
    | cons r rs ih =>
      intro rows n h
      simp only [List.foldl_cons]
      have hnotin : (rows.any (fun x => x.id == (ntPushRow gen mid r n).id)) = false := by
        rw [List.any_eq_false]
        intro x hx
        simp [ntPushRow, h n (le_refl n) x hx]
      have hins : insertNanothicknessNoConflict rows (ntPushRow gen mid r n) =
          rows ++ [ntPushRow gen mid r n] := by
        simp only [insertNanothicknessNoConflict, hnotin, Bool.false_eq_true, if_false]
      rw [hins]
      have h' : ∀ k, n + 1 ≤ k → ∀ x ∈ rows ++ [ntPushRow gen mid r n], x.id ≠ gen k := by
        intro k hk x hx
        rcases List.mem_append.mp hx with hx | hx
        · exact h k (by omega) x hx
        · have hxeq : x = ntPushRow gen mid r n := by simpa using hx
          subst hxeq
          show gen n ≠ gen k
          intro hEq
          have := hg _ _ hEq
          omega
      rw [ih (rows ++ [ntPushRow gen mid r n]) (n + 1) h']
      simp only [Prod.mk.injEq]
      constructor
      · simp [pushedNanothicknessRows, List.append_assoc]
      · simp only [List.length_cons]
        omega
  intro rows n h
  exact aux _ rows n h

/-- The non-deleted local cole_cole rows of a measurement, as the push loop
selects them. -/
def localCC (db : LocalDB α) (mid : String) : List (ColeColeRow α) :=
  db.cole_cole.filter (fun r => r.measurement_id == mid && !r.is_delete)

/-- The non-deleted local standard_plot rows of a measurement. -/
def localSP (db : LocalDB α) (mid : String) : List (StandardPlotRow α) :=
  db.standard_plot.filter (fun r => r.measurement_id == mid && !r.is_delete)

/-- The non-deleted local nanothickness rows of a measurement. -/
def localNT (db : LocalDB α) (mid : String) : List (NanothicknessRow α) :=
  db.nanothickness.filter (fun r => r.measurement_id == mid && !r.is_delete)

/-- The remote state and counter a full push produces when the local lookup
resolves to `m` and every generated id is fresh: measurement row inserted
(no-op when present), the three reading tables extended by the pushed copies
of the non-deleted local rows. -/
def pushOutcome (gen : Nat → String) (n : Nat) (db : LocalDB α)
    (remote : RemoteDB α) (mid : String) (m : LocalMeasurementRow) :
    RemoteDB α × Nat :=
  ({ users := remote.users,
     devices := remote.devices,
     measurements :=
       insertMeasurementNoConflict remote.measurements
         (pushedMeasurementRow m (next_num_order remote m.device_id)),
     cole_cole :=
       remote.cole_cole ++ pushedColeColeRows gen mid (localCC db mid) n,
     standard_plot :=
       remote.standard_plot ++ pushedStandardPlotRows gen mid (localSP db mid)
         (n + (localCC db mid).length),
     nanothickness :=
       remote.nanothickness ++ pushedNanothicknessRows gen mid (localNT db mid)
         (n + (localCC db mid).length + (localSP db mid).length) },
   n + (localCC db mid).length + (localSP db mid).length + (localNT db mid).length)

/-- One full push under a fresh injective id generator: the measurement row
is inserted (no-op when present), each reading table receives exactly the
pushed copies of the non-deleted local rows of the measurement, and the
counter advances by the total number of rows pushed. -/
theorem sync_sqlite_to_server_eq (gen : Nat → String)
    (hg : ∀ i j, gen i = gen j → i = j)
    (db : LocalDB α) (remote : RemoteDB α) (mid : String) (n : Nat)
    (m : LocalMeasurementRow)
    (hm : db.measurements.find? (fun x => x.id == mid && !x.is_delete) = some m)
    (hcc : ∀ k, n ≤ k → ∀ r ∈ remote.cole_cole, r.id ≠ gen k)
    (hsp : ∀ k, n ≤ k → ∀ r ∈ remote.standard_plot, r.id ≠ gen k)
    (hnt : ∀ k, n ≤ k → ∀ r ∈ remote.nanothickness, r.id ≠ gen k) :
    sync_sqlite_to_server gen n db remote mid =
      .ok (pushOutcome gen n db remote mid m) := by
  have hccs := pushColeCole_spec gen mid hg db.cole_cole remote.cole_cole n hcc
  have hsps := pushStandardPlot_spec gen mid hg db.standard_plot remote.standard_plot
    (n + (db.cole_cole.filter (fun r => r.measurement_id == mid && !r.is_delete)).length)
    (fun k hk => hsp k (by omega))
  have hnts := pushNanothickness_spec gen mid hg db.nanothickness remote.nanothickness
    (n + (db.cole_cole.filter (fun r => r.measurement_id == mid && !r.is_delete)).length
       + (db.standard_plot.filter (fun r => r.measurement_id == mid && !r.is_delete)).length)
    (fun k hk => hnt k (by omega))
  simp only [pushOutcome, localCC, localSP, localNT]
  simp only [sync_sqlite_to_server, sync_measurement_to_server, hm, hccs]
  simp only [hsps]
  simp only [hnts]

/-- After an idempotent measurement insert, a row with the inserted id is
present. -/
theorem insertMeasurementNoConflict_any_id (rows : List RemoteMeasurementRow)
    (row : RemoteMeasurementRow) (s : String) (hs : row.id = s) :
    (insertMeasurementNoConflict rows row).any (fun x => x.id == s) = true := by
  subst hs
  by_cases h : rows.any (fun x => x.id == row.id)
  · simp [insertMeasurementNoConflict, h]
  · simp [insertMeasurementNoConflict, h]

/-- The idempotent measurement insert is a no-op when the id is present. -/
theorem insertMeasurementNoConflict_noop (rows : List RemoteMeasurementRow)
    (row : RemoteMeasurementRow)
    (h : rows.any (fun x => x.id == row.id) = true) :
    insertMeasurementNoConflict rows row = rows := by
  simp [insertMeasurementNoConflict, h]

/-- C3: pushing the same measurement twice with unchanged local data. Both
pushes succeed; the second leaves the remote measurements table exactly as
the first left it (the idempotent insert no-ops), yet appends a fresh copy of
every non-deleted local reading row of the measurement to each of the three
remote reading tables — the fresh ids make the conflict no-op never fire. -/
theorem push_twice_duplicates_readings (gen : Nat → String)
    (db : LocalDB α) (remote0 : RemoteDB α) (mid : String) (n0 : Nat)
    (m : LocalMeasurementRow)
    (hg : ∀ i j, gen i = gen j → i = j)
    (hm : db.measurements.find? (fun x => x.id == mid && !x.is_delete) = some m)
    (hcc : ∀ k r, r ∈ remote0.cole_cole → r.id ≠ gen k)
    (hsp : ∀ k r, r ∈ remote0.standard_plot → r.id ≠ gen k)
    (hnt : ∀ k r, r ∈ remote0.nanothickness → r.id ≠ gen k) :
    ∃ remote1 n1 remote2 n2,
      sync_sqlite_to_server gen n0 db remote0 mid = .ok (remote1, n1) ∧
      sync_sqlite_to_server gen n1 db remote1 mid = .ok (remote2, n2) ∧
      remote2.measurements = remote1.measurements ∧
      remote2.cole_cole.map ccValues =
        remote1.cole_cole.map ccValues ++ (localCC db mid).map ccValues ∧
      remote2.standard_plot.map spValues =
        remote1.standard_plot.map spValues ++ (localSP db mid).map spValues ∧
      remote2.nanothickness.map ntValues =
        remote1.nanothickness.map ntValues ++ (localNT db mid).map ntValues := by
  have h1 := sync_sqlite_to_server_eq gen hg db remote0 mid n0 m hm
    (fun k _ r hr => hcc k r hr) (fun k _ r hr => hsp k r hr)
    (fun k _ r hr => hnt k r hr)
  have hcc1 : ∀ k, (pushOutcome gen n0 db remote0 mid m).2 ≤ k →
      ∀ r ∈ (pushOutcome gen n0 db remote0 mid m).1.cole_cole, r.id ≠ gen k := by
    simp only [pushOutcome]
    intro k hk r hr
    rcases List.mem_append.mp hr with hr | hr
    · exact hcc k r hr
    · obtain ⟨i, hi1, hi2, hid⟩ := mem_pushedColeColeRows_id hr
      rw [hid]
      intro hEq
      have := hg _ _ hEq
      omega
  have hsp1 : ∀ k, (pushOutcome gen n0 db remote0 mid m).2 ≤ k →
      ∀ r ∈ (pushOutcome gen n0 db remote0 mid m).1.standard_plot, r.id ≠ gen k := by
    simp only [pushOutcome]
    intro k hk r hr
    rcases List.mem_append.mp hr with hr | hr
    · exact hsp k r hr
    · obtain ⟨i, hi1, hi2, hid⟩ := mem_pushedStandardPlotRows_id hr
      rw [hid]
      intro hEq
      have := hg _ _ hEq
      omega
  have hnt1 : ∀ k, (pushOutcome gen n0 db remote0 mid m).2 ≤ k →
      ∀ r ∈ (pushOutcome gen n0 db remote0 mid m).1.nanothickness, r.id ≠ gen k := by
    simp only [pushOutcome]
    intro k hk r hr
    rcases List.mem_append.mp hr with hr | hr
    · exact hnt k r hr
    · obtain ⟨i, hi1, hi2, hid⟩ := mem_pushedNanothicknessRows_id hr
      rw [hid]
      intro hEq
      have := hg _ _ hEq
      omega
  have h2 := sync_sqlite_to_server_eq gen hg db
    (pushOutcome gen n0 db remote0 mid m).1 mid
    (pushOutcome gen n0 db remote0 mid m).2 m hm hcc1 hsp1 hnt1
  have hany : (pushOutcome gen n0 db remote0 mid m).1.measurements.any
      (fun x => x.id == m.id) = true := by
    simp only [pushOutcome]
    exact insertMeasurementNoConflict_any_id remote0.measurements
      (pushedMeasurementRow m (next_num_order remote0 m.device_id)) m.id rfl
  refine ⟨(pushOutcome gen n0 db remote0 mid m).1,
    (pushOutcome gen n0 db remote0 mid m).2,
    (pushOutcome gen (pushOutcome gen n0 db remote0 mid m).2 db
      (pushOutcome gen n0 db remote0 mid m).1 mid m).1,
    (pushOutcome gen (pushOutcome gen n0 db remote0 mid m).2 db
      (pushOutcome gen n0 db remote0 mid m).1 mid m).2,
    h1, h2, ?_, ?_, ?_, ?_⟩
  · show (insertMeasurementNoConflict (pushOutcome gen n0 db remote0 mid m).1.measurements
      (pushedMeasurementRow m
        (next_num_order (pushOutcome gen n0 db remote0 mid m).1 m.device_id))) =
      (pushOutcome gen n0 db remote0 mid m).1.measurements
    exact insertMeasurementNoConflict_noop _ _ (by simpa [pushedMeasurementRow] using hany)
  · show ((pushOutcome gen n0 db remote0 mid m).1.cole_cole ++
      pushedColeColeRows gen mid (localCC db mid)
        (pushOutcome gen n0 db remote0 mid m).2).map ccValues = _
    simp [List.map_append, pushedColeColeRows_map_values]
  · show ((pushOutcome gen n0 db remote0 mid m).1.standard_plot ++
      pushedStandardPlotRows gen mid (localSP db mid)
        ((pushOutcome gen n0 db remote0 mid m).2 + (localCC db mid).length)).map spValues = _
    simp [List.map_append, pushedStandardPlotRows_map_values]
  · show ((pushOutcome gen n0 db remote0 mid m).1.nanothickness ++
      pushedNanothicknessRows gen mid (localNT db mid)
        ((pushOutcome gen n0 db remote0 mid m).2 + (localCC db mid).length +
          (localSP db mid).length)).map ntValues = _
    simp [List.map_append, pushedNanothicknessRows_map_values]

/-- A concrete injective id generator: n characters u. -/
def genU : Nat → String := fun n => ⟨List.replicate n 'u'⟩

/-- The generator is injective: the produced strings have distinct lengths. -/
theorem genU_inj : ∀ i j, genU i = genU j → i = j := by
  intro i j h
  have h2 : (genU i).data.length = (genU j).data.length := by rw [h]
  simpa [genU] using h2

/-- C3 witness: pushing measurement "X" twice from the fixture database onto
a remote that already mirrors its measurement row but holds no reading rows;
the measurement table is unchanged by the second push while each reading
table receives the local rows again. -/
theorem push_twice_duplicates_witness :
    ∃ remote1 n1 remote2 n2,
      sync_sqlite_to_server genU 0 dbFixture remotePush "mX" = .ok (remote1, n1) ∧
      sync_sqlite_to_server genU n1 dbFixture remote1 "mX" = .ok (remote2, n2) ∧
      remote2.measurements = remote1.measurements ∧
      remote2.cole_cole.map ccValues =
        remote1.cole_cole.map ccValues ++ (localCC dbFixture "mX").map ccValues ∧
      remote2.standard_plot.map spValues =
        remote1.standard_plot.map spValues ++ (localSP dbFixture "mX").map spValues ∧
      remote2.nanothickness.map ntValues =
        remote1.nanothickness.map ntValues ++ (localNT dbFixture "mX").map ntValues :=
  push_twice_duplicates_readings genU dbFixture remotePush "mX" 0 measurementX
    genU_inj (by decide) (by simp [remotePush]) (by simp [remotePush])
    (by simp [remotePush])

/-- When every required column is present among the normalized headers, the
shared ingestion succeeds; every output column bears a required name, every
output column's values come from an input column whose normalized name
matches (extras are dropped), every input column whose normalized name is
required appears in the output, and when no required name is carried by more
than one input column the output is exactly the required columns in their
canonical order. -/
theorem readCsvRequired_ok_spec (required : List String) (csv : Csv α)
    (h : ∀ nm ∈ required, ∃ c ∈ csv.cols, normalizeHeader c.1 = nm) :
    ∃ out, readCsvRequired required csv = .ok out ∧
      (∀ p ∈ out.cols, p.1 ∈ required) ∧
      (∀ p ∈ out.cols, ∃ c ∈ csv.cols, normalizeHeader c.1 = p.1 ∧ c.2 = p.2) ∧
      (∀ c ∈ csv.cols, normalizeHeader c.1 ∈ required →
        (normalizeHeader c.1, c.2) ∈ out.cols) ∧
      ((∀ nm ∈ required, csv.cols.countP (fun c => normalizeHeader c.1 == nm) ≤ 1) →
        out.cols.map Prod.fst = required) := by
  have hmiss : missingRequired required
      (csv.cols.map (fun c => (normalizeHeader c.1, c.2))) = [] := by
    rw [missingRequired, List.filter_eq_nil_iff]
    intro nm hnm
    obtain ⟨c, hc, hcn⟩ := h nm hnm
    have hany : ((csv.cols.map (fun c => (normalizeHeader c.1, c.2))).any
        (fun c => c.1 == nm)) = true := by
      rw [List.any_eq_true]
      exact ⟨(normalizeHeader c.1, c.2), List.mem_map_of_mem _ hc, by simp [hcn]⟩
    simp [hany]
  refine ⟨⟨selectCols (csv.cols.map (fun c => (normalizeHeader c.1, c.2))) required⟩,
    ?_, ?_, ?_, ?_, ?_⟩
  · simp [readCsvRequired, hmiss]
  · intro p hp
    rcases List.mem_flatMap.mp hp with ⟨nm, hnm, hpf⟩
    have hp1 : p.1 = nm := by simpa using (List.mem_filter.mp hpf).2
    rw [hp1]
    exact hnm
  · intro p hp
    rcases List.mem_flatMap.mp hp with ⟨nm, hnm, hpf⟩
    have hmem := (List.mem_filter.mp hpf).1
    rcases List.mem_map.mp hmem with ⟨c0, hc0, rfl⟩
    exact ⟨c0, hc0, rfl, rfl⟩
  · intro c hc hcr
    refine List.mem_flatMap.mpr ⟨normalizeHeader c.1, hcr, ?_⟩
    exact List.mem_filter.mpr ⟨List.mem_map_of_mem _ hc, by simp⟩
  · intro huniq
    show (selectCols (csv.cols.map (fun c => (normalizeHeader c.1, c.2)))
      required).map Prod.fst = required
    have aux : ∀ (req : List String),
        (∀ nm ∈ req, ∃ c ∈ csv.cols, normalizeHeader c.1 = nm) →
        (∀ nm ∈ req, csv.cols.countP (fun c => normalizeHeader c.1 == nm) ≤ 1) →
        (selectCols (csv.cols.map (fun c => (normalizeHeader c.1, c.2)))
          req).map Prod.fst = req := by
      intro req
      induction req with
      | nil => intro _ _; rfl
      | cons nm rest ih =>
        intro hall huq
        have hlen : ((csv.cols.map (fun c => (normalizeHeader c.1, c.2))).filter
            (fun c => c.1 == nm)).length =
            csv.cols.countP (fun c => normalizeHeader c.1 == nm) := by
          rw [← List.countP_eq_length_filter, List.countP_map]
          rfl
        have hpos : 0 < csv.cols.countP (fun c => normalizeHeader c.1 == nm) := by
          obtain ⟨c, hc, hcn⟩ := hall nm (List.mem_cons_self _ _)
          exact List.countP_pos_iff.mpr ⟨c, hc, by simp [hcn]⟩
        have hle := huq nm (List.mem_cons_self _ _)
        have hone : ((csv.cols.map (fun c => (normalizeHeader c.1, c.2))).filter
            (fun c => c.1 == nm)).length = 1 := by
          rw [hlen]
          omega
        obtain ⟨x, hx⟩ := List.length_eq_one.mp hone
        have hx1 : x.1 = nm := by
          have hxm : x ∈ (csv.cols.map (fun c => (normalizeHeader c.1, c.2))).filter
              (fun c => c.1 == nm) := by
            rw [hx]
            exact List.mem_singleton.mpr rfl
          simpa using (List.mem_filter.mp hxm).2
        show ((csv.cols.map (fun c => (normalizeHeader c.1, c.2))).filter
            (fun c => c.1 == nm) ++
          selectCols (csv.cols.map (fun c => (normalizeHeader c.1, c.2)))
            rest).map Prod.fst = nm :: rest
        rw [List.map_append, hx,
          ih (fun y hy => hall y (List.mem_cons_of_mem _ hy))
             (fun y hy => huq y (List.mem_cons_of_mem _ hy))]
        simp [hx1]
    exact aux required h huniq

/-- When at least one required column is absent from the normalized headers,
the shared ingestion fails, and the reported list holds exactly the required
column names that are missing. -/
theorem readCsvRequired_missing_spec (required : List String) (csv : Csv α)
    (h : ∃ nm ∈ required, ∀ c ∈ csv.cols, normalizeHeader c.1 ≠ nm) :
    ∃ miss, readCsvRequired required csv = .error miss ∧
      ∀ nm, nm ∈ miss ↔
        (nm ∈ required ∧ ∀ c ∈ csv.cols, normalizeHeader c.1 ≠ nm) := by
  obtain ⟨nm0, hnm0, hnone0⟩ := h
  have habs : ∀ nm, (∀ c ∈ csv.cols, normalizeHeader c.1 ≠ nm) →
      ((csv.cols.map (fun c => (normalizeHeader c.1, c.2))).any
        (fun c => c.1 == nm)) = false := by
    intro nm hnone
    rw [List.any_eq_false]
    intro c hcm
    rcases List.mem_map.mp hcm with ⟨c0, hc0, rfl⟩
    simp [hnone c0 hc0]
  have hmem0 : nm0 ∈ missingRequired required
      (csv.cols.map (fun c => (normalizeHeader c.1, c.2))) := by
    rw [missingRequired, List.mem_filter]
    exact ⟨hnm0, by simp [habs nm0 hnone0]⟩
  have hne : missingRequired required
      (csv.cols.map (fun c => (normalizeHeader c.1, c.2))) ≠ [] := by
    intro hEq
    rw [hEq] at hmem0
    cases hmem0
  refine ⟨missingRequired required
      (csv.cols.map (fun c => (normalizeHeader c.1, c.2))), ?_, ?_⟩
  · simp [readCsvRequired, hne]
  · intro nm
    rw [missingRequired, List.mem_filter]
    constructor
    · rintro ⟨h1, h2⟩
      refine ⟨h1, ?_⟩
      intro c hc hcn
      have hany : ((csv.cols.map (fun c => (normalizeHeader c.1, c.2))).any
          (fun x => x.1 == nm)) = true := by
        rw [List.any_eq_true]
        exact ⟨(normalizeHeader c.1, c.2), List.mem_map_of_mem _ hc, by simp [hcn]⟩
      simp [hany] at h2
    · rintro ⟨h1, h2⟩
      exact ⟨h1, by simp [habs nm h2]⟩

/-- A standard-plot CSV whose raw headers Time and TIME both normalize to
time: pandas keeps both raw columns, normalization duplicates the label. -/
def spCsvDupTime : Csv Int := ⟨[("Time", [1]), ("TIME", [2]), ("voltage", [3])]⟩

/-- C6 counterexample: this CSV satisfies the claim's precondition (all
required columns present after normalization), yet ingestion returns the
duplicated time column twice — three columns, not exactly the required two —
because pandas label selection returns every column of a duplicated label. -/
theorem read_standard_plot_duplicate_label_counterexample :
    (∀ nm ∈ requiredStandardPlot, ∃ c ∈ spCsvDupTime.cols, normalizeHeader c.1 = nm) ∧
    read_standard_plot_csv spCsvDupTime =
      .ok ⟨[("time", ([1] : List Int)), ("time", [2]), ("voltage", [3])]⟩ ∧
    ["time", "time", "voltage"] ≠ requiredStandardPlot := by
  refine ⟨by decide, by rfl, by decide⟩

/-- C6 (amended): each of the three CSV ingestors — Cole-Cole, standard plot
and the spec-modelled nanothickness — accepts exactly the CSVs whose
normalized (trimmed, lowercased) headers include all of its required columns
and rejects the others with an error naming exactly the missing required
columns. On acceptance every returned column bears a required name with
values taken from a matching input column, extras are dropped, every input
column carrying a required normalized name is returned (so a required label
duplicated by normalization is returned once per duplicate, as pandas label
selection does), and whenever no required name is duplicated the result is
exactly the required columns in canonical order. -/
theorem csv_ingestors_contract :
    (∀ csv : Csv α, (∀ nm ∈ requiredColeCole, ∃ c ∈ csv.cols, normalizeHeader c.1 = nm) →
      ∃ out, read_cole_cole_csv csv = .ok out ∧
        (∀ p ∈ out.cols, p.1 ∈ requiredColeCole) ∧
        (∀ p ∈ out.cols, ∃ c ∈ csv.cols, normalizeHeader c.1 = p.1 ∧ c.2 = p.2) ∧
        (∀ c ∈ csv.cols, normalizeHeader c.1 ∈ requiredColeCole →
          (normalizeHeader c.1, c.2) ∈ out.cols) ∧
        ((∀ nm ∈ requiredColeCole,
            csv.cols.countP (fun c => normalizeHeader c.1 == nm) ≤ 1) →
          out.cols.map Prod.fst = requiredColeCole)) ∧
    (∀ csv : Csv α, (∃ nm ∈ requiredColeCole, ∀ c ∈ csv.cols, normalizeHeader c.1 ≠ nm) →
      ∃ miss, read_cole_cole_csv csv = .error miss ∧
        ∀ nm, nm ∈ miss ↔
          (nm ∈ requiredColeCole ∧ ∀ c ∈ csv.cols, normalizeHeader c.1 ≠ nm)) ∧
    (∀ csv : Csv α, (∀ nm ∈ requiredStandardPlot, ∃ c ∈ csv.cols, normalizeHeader c.1 = nm) →
      ∃ out, read_standard_plot_csv csv = .ok out ∧
        (∀ p ∈ out.cols, p.1 ∈ requiredStandardPlot) ∧
        (∀ p ∈ out.cols, ∃ c ∈ csv.cols, normalizeHeader c.1 = p.1 ∧ c.2 = p.2) ∧
        (∀ c ∈ csv.cols, normalizeHeader c.1 ∈ requiredStandardPlot →
          (normalizeHeader c.1, c.2) ∈ out.cols) ∧
        ((∀ nm ∈ requiredStandardPlot,
            csv.cols.countP (fun c => normalizeHeader c.1 == nm) ≤ 1) →
          out.cols.map Prod.fst = requiredStandardPlot)) ∧
    (∀ csv : Csv α, (∃ nm ∈ requiredStandardPlot, ∀ c ∈ csv.cols, normalizeHeader c.1 ≠ nm) →
      ∃ miss, read_standard_plot_csv csv = .error miss ∧
        ∀ nm, nm ∈ miss ↔
          (nm ∈ requiredStandardPlot ∧ ∀ c ∈ csv.cols, normalizeHeader c.1 ≠ nm)) ∧
    (∀ csv : Csv α, (∀ nm ∈ requiredNanothickness, ∃ c ∈ csv.cols, normalizeHeader c.1 = nm) →
      ∃ out, read_nanothickness_csv csv = .ok out ∧
        (∀ p ∈ out.cols, p.1 ∈ requiredNanothickness) ∧
        (∀ p ∈ out.cols, ∃ c ∈ csv.cols, normalizeHeader c.1 = p.1 ∧ c.2 = p.2) ∧
        (∀ c ∈ csv.cols, normalizeHeader c.1 ∈ requiredNanothickness →
          (normalizeHeader c.1, c.2) ∈ out.cols) ∧
        ((∀ nm ∈ requiredNanothickness,
            csv.cols.countP (fun c => normalizeHeader c.1 == nm) ≤ 1) →
          out.cols.map Prod.fst = requiredNanothickness)) ∧
    (∀ csv : Csv α, (∃ nm ∈ requiredNanothickness, ∀ c ∈ csv.cols, normalizeHeader c.1 ≠ nm) →
      ∃ miss, read_nanothickness_csv csv = .error miss ∧
        ∀ nm, nm ∈ miss ↔
          (nm ∈ requiredNanothickness ∧ ∀ c ∈ csv.cols, normalizeHeader c.1 ≠ nm)) :=
  ⟨fun csv h => readCsvRequired_ok_spec requiredColeCole csv h,
   fun csv h => readCsvRequired_missing_spec requiredColeCole csv h,
   fun csv h => readCsvRequired_ok_spec requiredStandardPlot csv h,
   fun csv h => readCsvRequired_missing_spec requiredStandardPlot csv h,
   fun csv h => readCsvRequired_ok_spec requiredNanothickness csv h,
   fun csv h => readCsvRequired_missing_spec requiredNanothickness csv h⟩

/-- A Cole-Cole CSV with shuffled case, stray whitespace and an extra column. -/
def ccCsvGood : Csv Int :=
  ⟨[(" Frequency ", [1, 2]), ("resistance", [3, 4]), ("REACTANCE", [5, 6]),
    ("capacitance", [7, 8]), ("extra", [9, 10])]⟩

/-- A standard-plot CSV missing the voltage column. -/
def spCsvMissing : Csv Int := ⟨[("time", [0, 1])]⟩

/-- A nanothickness CSV with the positions out of order. -/
def ntCsvGood : Csv Int :=
  ⟨[("pos5", [5]), ("pos4", [4]), ("pos3", [3]), ("pos2", [2]), ("Pos1 ", [1])]⟩

/-- C6 witness: the duplicate-free Cole-Cole CSV is accepted with exactly the
canonical columns, the voltage-less standard-plot CSV is rejected naming
exactly voltage, and the shuffled nanothickness CSV is accepted. -/
theorem csv_ingestors_witness :
    (∃ out, read_cole_cole_csv ccCsvGood = .ok out ∧
      out.cols.map Prod.fst = requiredColeCole ∧
      ∀ p ∈ out.cols, ∃ c ∈ ccCsvGood.cols, normalizeHeader c.1 = p.1 ∧ c.2 = p.2) ∧
    (∃ miss, read_standard_plot_csv spCsvMissing = .error miss ∧
      ∀ nm, nm ∈ miss ↔
        (nm ∈ requiredStandardPlot ∧
          ∀ c ∈ spCsvMissing.cols, normalizeHeader c.1 ≠ nm)) ∧
    (∃ out, read_nanothickness_csv ntCsvGood = .ok out ∧
      out.cols.map Prod.fst = requiredNanothickness ∧
      ∀ p ∈ out.cols, ∃ c ∈ ntCsvGood.cols, normalizeHeader c.1 = p.1 ∧ c.2 = p.2) := by
  refine ⟨?_, ?_, ?_⟩
  · obtain ⟨out, heq, _, hsrc, _, hcanon⟩ :=
      (csv_ingestors_contract).1 ccCsvGood (by decide)
    exact ⟨out, heq, hcanon (by decide), hsrc⟩
  · exact (csv_ingestors_contract).2.2.2.1 spCsvMissing (by decide)
  · obtain ⟨out, heq, _, hsrc, _, hcanon⟩ :=
      (csv_ingestors_contract).2.2.2.2.1 ntCsvGood (by decide)
    exact ⟨out, heq, hcanon (by decide), hsrc⟩

end ThermalLocal
